import Mathlib

/-!
Verification development for the Wyze credential/token lifecycle manager and
request-signing layer (`src/auth.ts`, `src/api.ts`, `src/constants.ts`).

The TypeScript source is shallowly embedded: pure computations become Lean
functions on `Nat`/`Int`/`String`/`List`, the mutable module-level token state
becomes explicit state passing, and network calls become outcome parameters
supplied by the environment.  `crypto.createHash("md5")` is embedded as a full
MD5 implementation over byte lists (`Nat` entries below 256, arithmetic taken
modulo 2^32 where the algorithm wraps).
-/

set_option maxRecDepth 100000
set_option linter.unusedVariables false

namespace Wyze

/-! ### MD5 (embedding of Node's `crypto.createHash("md5") ... digest("hex")`) -/

/-- 32-bit wrapping addition. -/
def add32 (a b : Nat) : Nat := (a + b) % 4294967296

/-- 32-bit bitwise complement. -/
def not32 (x : Nat) : Nat := x ^^^ 4294967295

/-- 32-bit left rotation (for `x < 2^32` and `0 < s < 32`). -/
def rotl32 (x s : Nat) : Nat := ((x <<< s) + (x >>> (32 - s))) % 4294967296

/-- MD5 round function F (rounds 0-15). -/
def mdF (b c d : Nat) : Nat := (b &&& c) ||| (not32 b &&& d)

/-- MD5 round function G (rounds 16-31). -/
def mdG (b c d : Nat) : Nat := (d &&& b) ||| (not32 d &&& c)

/-- MD5 round function H (rounds 32-47). -/
def mdH (b c d : Nat) : Nat := b ^^^ c ^^^ d

/-- MD5 round function I (rounds 48-63). -/
def mdI (b c d : Nat) : Nat := c ^^^ (b ||| not32 d)

/-- MD5 sine-derived constant table K. -/
def mdK : List Nat :=
  [0xd76aa478, 0xe8c7b756, 0x242070db, 0xc1bdceee,
   0xf57c0faf, 0x4787c62a, 0xa8304613, 0xfd469501,
   0x698098d8, 0x8b44f7af, 0xffff5bb1, 0x895cd7be,
   0x6b901122, 0xfd987193, 0xa679438e, 0x49b40821,
   0xf61e2562, 0xc040b340, 0x265e5a51, 0xe9b6c7aa,
   0xd62f105d, 0x02441453, 0xd8a1e681, 0xe7d3fbc8,
   0x21e1cde6, 0xc33707d6, 0xf4d50d87, 0x455a14ed,
   0xa9e3e905, 0xfcefa3f8, 0x676f02d9, 0x8d2a4c8a,
   0xfffa3942, 0x8771f681, 0x6d9d6122, 0xfde5380c,
   0xa4beea44, 0x4bdecfa9, 0xf6bb4b60, 0xbebfbc70,
   0x289b7ec6, 0xeaa127fa, 0xd4ef3085, 0x04881d05,
   0xd9d4d039, 0xe6db99e5, 0x1fa27cf8, 0xc4ac5665,
   0xf4292244, 0x432aff97, 0xab9423a7, 0xfc93a039,
   0x655b59c3, 0x8f0ccc92, 0xffeff47d, 0x85845dd1,
   0x6fa87e4f, 0xfe2ce6e0, 0xa3014314, 0x4e0811a1,
   0xf7537e82, 0xbd3af235, 0x2ad7d2bb, 0xeb86d391]

/-- MD5 per-round shift table S. -/
def mdS : List Nat :=
  [7, 12, 17, 22, 7, 12, 17, 22, 7, 12, 17, 22, 7, 12, 17, 22,
   5, 9, 14, 20, 5, 9, 14, 20, 5, 9, 14, 20, 5, 9, 14, 20,
   4, 11, 16, 23, 4, 11, 16, 23, 4, 11, 16, 23, 4, 11, 16, 23,
   6, 10, 15, 21, 6, 10, 15, 21, 6, 10, 15, 21, 6, 10, 15, 21]

/-- The four 32-bit MD5 chaining words. -/
structure MD5State where
  a : Nat
  b : Nat
  c : Nat
  d : Nat
deriving DecidableEq

/-- `n` little-endian bytes of `w`. -/
def leBytes (n w : Nat) : List Nat :=
  (List.range n).map (fun i => (w >>> (8 * i)) % 256)

/-- MD5 padding: append `0x80`, zero-pad to 56 mod 64, then the 64-bit
little-endian bit length of the original message. -/
def md5PadBytes (msg : List Nat) : List Nat :=
  let len := msg.length
  let zeros := (120 - (len + 1) % 64) % 64
  msg ++ [128] ++ List.replicate zeros 0 ++ leBytes 8 ((len * 8) % 18446744073709551616)

/-- 32-bit little-endian word `g` of a 64-byte chunk. -/
def chunkWord (chunk : List Nat) (g : Nat) : Nat :=
  chunk.getD (4 * g) 0 + ((chunk.getD (4 * g + 1) 0) <<< 8) +
    ((chunk.getD (4 * g + 2) 0) <<< 16) + ((chunk.getD (4 * g + 3) 0) <<< 24)

/-- One of the 64 MD5 rounds; `m` fetches message words of the current chunk. -/
def md5Round (m : Nat → Nat) (st : MD5State) (i : Nat) : MD5State :=
  let fg : Nat × Nat :=
    if i < 16 then (mdF st.b st.c st.d, i)
    else if i < 32 then (mdG st.b st.c st.d, (5 * i + 1) % 16)
    else if i < 48 then (mdH st.b st.c st.d, (3 * i + 5) % 16)
    else (mdI st.b st.c st.d, (7 * i) % 16)
  let f := add32 (add32 (add32 fg.1 st.a) (mdK.getD i 0)) (m fg.2)
  ⟨st.d, add32 st.b (rotl32 f (mdS.getD i 0)), st.b, st.c⟩

/-- Process one 64-byte chunk. -/
def md5Chunk (st : MD5State) (chunk : List Nat) : MD5State :=
  let r := (List.range 64).foldl (md5Round (chunkWord chunk)) st
  ⟨add32 st.a r.a, add32 st.b r.b, add32 st.c r.c, add32 st.d r.d⟩

/-- MD5 digest of a byte list, as the 16 digest bytes. -/
def md5Digest (msg : List Nat) : List Nat :=
  let padded := md5PadBytes msg
  let final := (List.range (padded.length / 64)).foldl
    (fun st j => md5Chunk st ((padded.drop (64 * j)).take 64))
    ⟨0x67452301, 0xefcdab89, 0x98badcfe, 0x10325476⟩
  leBytes 4 final.a ++ leBytes 4 final.b ++ leBytes 4 final.c ++ leBytes 4 final.d

/-- The sixteen lowercase hexadecimal digit characters. -/
def hexDigits : List Char := "0123456789abcdef".data

/-- Lowercase hexadecimal digit of a value below 16. -/
def hexChar : Nat → Char
  | 0 => '0' | 1 => '1' | 2 => '2' | 3 => '3'
  | 4 => '4' | 5 => '5' | 6 => '6' | 7 => '7'
  | 8 => '8' | 9 => '9' | 10 => 'a' | 11 => 'b'
  | 12 => 'c' | 13 => 'd' | 14 => 'e' | _ => 'f'

/-- Lowercase hexadecimal rendering of a byte list, two digits per byte. -/
def bytesToHex (bs : List Nat) : List Char :=
  (bs.map (fun b => [hexChar (b / 16), hexChar (b % 16)])).flatten

/-- UTF-8 encoding of a single code point (how Node encodes string input to
`hash.update`). -/
def utf8Encode (c : Nat) : List Nat :=
  if c < 128 then [c]
  else if c < 2048 then [192 ||| (c >>> 6), 128 ||| (c &&& 63)]
  else if c < 65536 then
    [224 ||| (c >>> 12), 128 ||| ((c >>> 6) &&& 63), 128 ||| (c &&& 63)]
  else
    [240 ||| (c >>> 18), 128 ||| ((c >>> 12) &&& 63),
     128 ||| ((c >>> 6) &&& 63), 128 ||| (c &&& 63)]

/-- UTF-8 bytes of a string. -/
def strBytes (s : String) : List Nat :=
  (s.data.map (fun ch => utf8Encode ch.toNat)).flatten

/-- `crypto.createHash("md5").update(s).digest("hex")`. -/
def md5Hex (s : String) : String :=
  ⟨bytesToHex (md5Digest (strBytes s))⟩

/-! ### Constants (`src/constants.ts`) -/

/-- `FORD_APP_KEY` from `constants.ts`. -/
def FORD_APP_KEY : String := "275965684684dbdaf29a0ed9"

/-- `FORD_APP_SECRET` from `constants.ts`. -/
def FORD_APP_SECRET : String := "4deekof1ba311c5c33a9cb8e12787e8c"

/-- `TOKEN_REFRESH_INTERVAL` from `constants.ts`: 48 hours in milliseconds. -/
def TOKEN_REFRESH_INTERVAL : Int := 48 * 60 * 60 * 1000

/-! ### Password hashing (`hashPassword` in `auth.ts`) -/

/-- `hashPassword`: three iterations of hex-rendered MD5, starting from the
plaintext, exactly as the `for` loop in `auth.ts`. -/
def hashPassword (password : String) : String :=
  (List.range 3).foldl (fun hash _ => md5Hex hash) password

/-! ### Token state (`auth.ts`) -/

/-- `WyzeTokens` from `types.ts`. Times are milliseconds since epoch. -/
structure WyzeTokens where
  accessToken : String
  refreshToken : String
  expiresAt : Int
deriving DecidableEq

/-- `WyzeCredentials` from `types.ts`. -/
structure WyzeCredentials where
  email : String
  password : String
  apiKey : String
  keyId : String
deriving DecidableEq

/-- The module-level mutable state of `auth.ts` (`credentials`, `currentTokens`),
made explicit. -/
structure AuthState where
  credentials : Option WyzeCredentials
  currentTokens : Option WyzeTokens
deriving DecidableEq

/-- `setCredentials` from `auth.ts`: stores credentials, leaves tokens alone. -/
def setCredentials (s : AuthState) (creds : WyzeCredentials) : AuthState :=
  { s with credentials := some creds }

/-- `isTokenExpired` from `auth.ts`, with the state and `Date.now()` explicit. -/
def isTokenExpired (currentTokens : Option WyzeTokens) (now : Int) : Bool :=
  match currentTokens with
  | none => true
  | some t => now ≥ t.expiresAt

/-- `isTokenNearExpiry` from `auth.ts`: within 1 hour of the expiry estimate. -/
def isTokenNearExpiry (currentTokens : Option WyzeTokens) (now : Int) : Bool :=
  match currentTokens with
  | none => true
  | some t => now ≥ t.expiresAt - 60 * 60 * 1000

/-! ### Login (`login` in `auth.ts`)

The login HTTP response body is modelled with the fields the code inspects:
optional top-level `access_token`/`refresh_token` (the "direct" shape), the
envelope `code` (string or number in JS, or absent), `msg`, and the nested
`data` object.  JS truthiness on strings (falsy iff empty or undefined) is
modelled by `strTruthy`. -/

/-- The envelope `code` field: `string | number`, or absent. -/
inductive RespCode
  | str (s : String)
  | num (n : Int)
  | undef
deriving DecidableEq

/-- `data.code !== "1" && data.code !== 1`, negated: the success test used
throughout `auth.ts`/`api.ts` (strict equality never identifies `"1"` with `1`
across types, but both are accepted). -/
def isSuccessCode (c : RespCode) : Bool :=
  c = RespCode.str "1" || c = RespCode.num 1

/-- The nested `data` object of a login response (`WyzeLoginResponse` fields the
code reads, all optional at runtime). -/
structure LoginRespData where
  access_token : Option String := none
  refresh_token : Option String := none
  mfa_options : Option (List String) := none
deriving DecidableEq

/-- A login response body. -/
structure LoginRespBody where
  access_token : Option String := none
  refresh_token : Option String := none
  code : RespCode := RespCode.undef
  msg : Option String := none
  data : Option LoginRespData := none
deriving DecidableEq

/-- JS truthiness of a possibly-absent string: falsy iff absent or empty. -/
def strTruthy : Option String → Bool
  | none => false
  | some s => s ≠ ""

/-- The token-extraction step of `login`: the top-level location is checked
first, the nested `data` location second. -/
def extractTokens (b : LoginRespBody) : Option String × Option String :=
  if strTruthy b.access_token then (b.access_token, b.refresh_token)
  else if strTruthy (b.data.bind (fun d => d.access_token)) then
    (b.data.bind (fun d => d.access_token), b.data.bind (fun d => d.refresh_token))
  else (none, none)

/-- The exact message of the MFA error thrown by `login`. -/
def mfaMessage (options : List String) : String :=
  "MFA is required for this account. MFA options: " ++ String.intercalate ", " options ++
    ". MFA is not yet supported. Please disable MFA or use a different authentication method."

/-- Outcome of a `login` call, one constructor per `throw` site plus success. -/
inductive LoginResult
  | ok (tokens : WyzeTokens)
  | mfaRequired (message : String)
  | loginFailed (code : RespCode) (msg : Option String)
  | noAccessToken
  | credentialsNotSet
  | invalidCredentials
  | requestFailed (status : Option Int)
  | ensureFailed
deriving DecidableEq

/-- Whether a `LoginResult` is the distinct MFA-required error. -/
def LoginResult.isMfaRequired : LoginResult → Bool
  | .mfaRequired _ => true
  | _ => false

/-- The response-processing part of `login` (`auth.ts` lines 79-125): token
extraction, the error checks, and construction of the new token pair with
expiry `now + TOKEN_REFRESH_INTERVAL`. -/
def loginParse (b : LoginRespBody) (now : Int) : LoginResult :=
  let ex := extractTokens b
  if !strTruthy ex.1 && !isSuccessCode b.code then
    match b.data.bind (fun d => d.mfa_options) with
    | some opts =>
      if opts.length > 0 then .mfaRequired (mfaMessage opts)
      else .loginFailed b.code b.msg
    | none => .loginFailed b.code b.msg
  else if !strTruthy ex.1 || !strTruthy ex.2 then .noAccessToken
  else
    match ex.1, ex.2 with
    | some a, some r => .ok ⟨a, r, now + TOKEN_REFRESH_INTERVAL⟩
    | _, _ => .noAccessToken

/-- What the login HTTP exchange produced: a JSON body, or an axios-level
failure carrying the HTTP status (if any). -/
inductive LoginOutcome
  | resp (body : LoginRespBody)
  | httpFailure (status : Option Int)
deriving DecidableEq

/-- `login` from `auth.ts` as a state transition: requires credentials, maps a
401 failure to the invalid-credentials error, processes a body via
`loginParse`, and replaces the stored token pair only on success. -/
def loginStep (credentials : Option WyzeCredentials) (currentTokens : Option WyzeTokens)
    (outcome : LoginOutcome) (now : Int) : LoginResult × Option WyzeTokens :=
  match credentials with
  | none => (.credentialsNotSet, currentTokens)
  | some _ =>
    match outcome with
    | .httpFailure status =>
      if status = some 401 then (.invalidCredentials, currentTokens)
      else (.requestFailed status, currentTokens)
    | .resp b =>
      match loginParse b now with
      | .ok t => (.ok t, some t)
      | r => (r, currentTokens)

/-! ### Refresh (`refreshToken` in `auth.ts`) -/

/-- What the refresh HTTP exchange produced: an envelope with `code` and the
`data.access_token`/`data.refresh_token` fields (typed `string` in
`WyzeApiResponse<WyzeLoginResponse>`), or a thrown error of any kind. -/
inductive RefreshOutcome
  | resp (code : RespCode) (msg : Option String) (access_token refresh_token : String)
  | thrown
deriving DecidableEq

/-- `refreshToken` from `auth.ts` as a state transition.  With no stored pair it
degrades directly to `login`; a non-success `code` or a thrown error falls back
to `login`; success replaces the pair wholesale with expiry `now + 48h`. -/
def refreshTokenStep (credentials : Option WyzeCredentials)
    (currentTokens : Option WyzeTokens) (refreshOutcome : RefreshOutcome)
    (loginOutcome : LoginOutcome) (now : Int) : LoginResult × Option WyzeTokens :=
  match currentTokens with
  | none => loginStep credentials none loginOutcome now
  | some _ =>
    match credentials with
    | none => (.credentialsNotSet, currentTokens)
    | some _ =>
      match refreshOutcome with
      | .thrown => loginStep credentials currentTokens loginOutcome now
      | .resp code _ a r =>
        if !isSuccessCode code then loginStep credentials currentTokens loginOutcome now
        else (.ok ⟨a, r, now + TOKEN_REFRESH_INTERVAL⟩,
              some ⟨a, r, now + TOKEN_REFRESH_INTERVAL⟩)

/-! ### `ensureValidToken` (`auth.ts`) -/

/-- Which of the three branches of `ensureValidToken` runs. -/
inductive AuthPath
  | loginPath
  | refreshPath
  | cachedPath
deriving DecidableEq

/-- The branch `ensureValidToken` takes for a given state and `Date.now()`. -/
def ensureValidTokenPath (currentTokens : Option WyzeTokens) (now : Int) : AuthPath :=
  if currentTokens.isNone || isTokenExpired currentTokens now then .loginPath
  else if isTokenNearExpiry currentTokens now then .refreshPath
  else .cachedPath

/-- The tail of `ensureValidToken`: a login/refresh error propagates; otherwise
the (possibly just replaced) stored access token is returned, with the
`"Failed to obtain access token"` guard when no pair is present. -/
def finishEnsure : LoginResult × Option WyzeTokens →
    Except LoginResult String × Option WyzeTokens
  | (.ok _, none) => (.error .ensureFailed, none)
  | (.ok _, some t) => (.ok t.accessToken, some t)
  | (r, s) => (.error r, s)

/-- `ensureValidToken` from `auth.ts` as a state transition: login when no pair
exists or it is expired, refresh (with its login fallback) when near expiry,
otherwise serve the cached token untouched. -/
def ensureValidTokenStep (credentials : Option WyzeCredentials)
    (currentTokens : Option WyzeTokens) (now : Int) (loginOutcome : LoginOutcome)
    (refreshOutcome : RefreshOutcome) : Except LoginResult String × Option WyzeTokens :=
  if currentTokens.isNone || isTokenExpired currentTokens now then
    finishEnsure (loginStep credentials currentTokens loginOutcome now)
  else if isTokenNearExpiry currentTokens now then
    finishEnsure (refreshTokenStep credentials currentTokens refreshOutcome loginOutcome now)
  else
    match currentTokens with
    | none => (.error .ensureFailed, none)
    | some t => (.ok t.accessToken, some t)

/-- A login response with success code `1`, no token in either location, and a
non-empty MFA option list: the input on which the MFA branch of `login` is
skipped. -/
def mfaSuccessCodeBody : LoginRespBody :=
  { access_token := none, refresh_token := none, code := RespCode.num 1, msg := none,
    data := some { access_token := none, refresh_token := none, mfa_options := some ["sms"] } }

/-- A login response with a non-success code, no token in either location, and
`data.mfa_options = ["sms"]`: the spec's MFA end-to-end scenario. -/
def mfaSmsBody : LoginRespBody :=
  { access_token := none, refresh_token := none, code := RespCode.str "2", msg := none,
    data := some { access_token := none, refresh_token := none, mfa_options := some ["sms"] } }

/-! ### Ford signature (`createFordSignature` in `api.ts`)

A JS `Record<string, string>` has distinct keys; it is modelled as an
association list, with first-match lookup.  `Object.keys(params).sort()` is
modelled as a lexicographic sort of the key list. -/

/-- First-match association-list lookup (`params[k]` for a key of the record). -/
def jsLookup (k : String) : List (String × String) → Option String
  | [] => none
  | (k', v) :: rest => if k' = k then some v else jsLookup k rest

/-- Lexicographic (code-unit) strict comparison of character lists, as JS
string `<` behaves on the default `sort()`. -/
def charsLt : List Char → List Char → Bool
  | [], [] => false
  | [], _ :: _ => true
  | _ :: _, [] => false
  | a :: as, b :: bs =>
    if a < b then true
    else if b < a then false
    else charsLt as bs

/-- Lexicographic string comparison used by the default `Array.sort()`. -/
def strLe (a b : String) : Bool := !charsLt b.data a.data

/-- The ordering relation on keys, as a `Prop`. -/
def StrLeP (a b : String) : Prop := strLe a b = true

instance : DecidableRel StrLeP := fun a b => instDecidableEqBool (strLe a b) true

/-- `Object.keys(params).sort()`: the keys in lexicographic order. -/
def sortedFordKeys (params : List (String × String)) : List String :=
  List.insertionSort StrLeP (params.map Prod.fst)

/-- `sortedKeys.map((k) => `...`).join("&")`: `key=value` pairs in sorted key
order, joined by `&`, with no URL-encoding. -/
def fordParamString (params : List (String × String)) : String :=
  String.intercalate "&"
    ((sortedFordKeys params).map (fun k => k ++ "=" ++ (jsLookup k params).getD ""))

/-- `method.toUpperCase()`, character by character (identical to JS on the
ASCII method names used here). -/
def jsToUpper (s : String) : String := ⟨s.data.map Char.toUpper⟩

/-- `createFordSignature` from `api.ts`: MD5 (lowercase hex) of
`UPPERCASE(method) + path + paramString + FORD_APP_SECRET`.  The `timestamp`
argument is accepted but unused, exactly as in the source. -/
def createFordSignature (method path : String) (params : List (String × String))
    (timestamp : String) : String :=
  md5Hex (jsToUpper method ++ path ++ fordParamString params ++ FORD_APP_SECRET)

/-! ### Error classification (`handleApiError` in `api.ts`) -/

/-- The response `data` fields `handleApiError` reads. -/
structure AxiosRespData where
  msg : Option String := none
  message : Option String := none
deriving DecidableEq

/-- An `AxiosError`: optionally a response (status and data), optionally a
transport error code (`"ECONNABORTED"` for timeout, `"ENOTFOUND"` for DNS
failure), and a message. -/
structure AxiosErrorInfo where
  response : Option (Int × Option AxiosRespData) := none
  code : Option String := none
  message : String := ""
deriving DecidableEq

/-- The `unknown` value caught by `handleApiError`. -/
inductive CaughtError
  | axios (e : AxiosErrorInfo)
  | jsError (message : String)
  | other (asString : String)
deriving DecidableEq

/-- `handleApiError` from `api.ts`: classifies a failure into the exact
user-facing message strings of the source. -/
def handleApiError (error : CaughtError) : String :=
  match error with
  | .axios e =>
    match e.response with
    | some (status, data) =>
      let msg := (((data.bind (fun d => d.msg)).orElse
        (fun _ => data.bind (fun d => d.message)))).getD "Unknown error"
      if status = 401 then "Error: Authentication failed. Please check your credentials."
      else if status = 403 then
        "Error: Access denied. You may not have permission for this operation."
      else if status = 404 then
        "Error: Resource not found. Please check the device MAC address."
      else if status = 429 then
        "Error: Rate limit exceeded. Please wait before making more requests."
      else "Error: API request failed (" ++ toString status ++ "): " ++ msg
    | none =>
      if e.code = some "ECONNABORTED" then "Error: Request timed out. Please try again."
      else if e.code = some "ENOTFOUND" then
        "Error: Unable to reach Wyze servers. Please check your internet connection."
      else "Error: Network error: " ++ e.message
  | .jsError m => "Error: " ++ m
  | .other s => "Error: " ++ s

/-- Boolean check that `needle` is a prefix of `hay`. -/
def charsPref : List Char → List Char → Bool
  | [], _ => true
  | a :: as, bs =>
    match bs with
    | [] => false
    | b :: bs2 => if a = b then charsPref as bs2 else false

/-- Boolean check that `needle` occurs contiguously inside `hay`. -/
def charsSub (needle : List Char) : List Char → Bool
  | [] => needle.isEmpty
  | c :: t => charsPref needle (c :: t) || charsSub needle t

/-- Whether `needle` occurs as a substring of `hay`. -/
def hasSubstr (needle hay : String) : Bool :=
  charsSub needle.data hay.data

/-! ### Brightness / color-temperature clamps (`api.ts`)

JS numbers are modelled as rationals (every finite JS float is one);
`Math.round` rounds to the nearest integer with ties toward `+∞`. -/

/-- `Math.round`: floor of the input plus one half. -/
def jsRound (x : ℚ) : ℤ := ⌊x + 1 / 2⌋

/-- The `(pid, pvalue)` pair `setDeviceBrightness` passes to
`setDeviceProperty`: `PropertyId.BRIGHTNESS` and the rounded value clamped to
`[1, 100]`, rendered in decimal. -/
def setDeviceBrightnessPValue (brightness : ℚ) : String × String :=
  ("P1501", toString (max 1 (min 100 (jsRound brightness))))

/-- The `(pid, pvalue)` pair `setDeviceColorTemp` passes to
`setDeviceProperty`: `PropertyId.COLOR_TEMP` and the rounded value clamped to
`[2700, 6500]`, rendered in decimal. -/
def setDeviceColorTempPValue (colorTemp : ℚ) : String × String :=
  ("P1502", toString (max 2700 (min 6500 (jsRound colorTemp))))

/-! ### Helper lemmas: the key ordering is total, transitive, antisymmetric -/

theorem charsLt_asymm : ∀ a b : List Char, charsLt a b = true → charsLt b a = false := by
  intro a
  induction a with
  | nil => intro b h; cases b <;> simp_all [charsLt]
  | cons x xs ih =>
    intro b h
    cases b with
    | nil => simp [charsLt] at h
    | cons y ys =>
      simp only [charsLt] at h ⊢
      rcases lt_trichotomy x y with h1 | h1 | h1
      · simp [h1, lt_asymm h1]
      · subst h1
        simp only [lt_irrefl, if_false] at h ⊢
        exact ih ys h
      · simp [h1, lt_asymm h1] at h

theorem charsLt_conn : ∀ a b : List Char, charsLt a b = false → charsLt b a = false →
    a = b := by
  intro a
  induction a with
  | nil =>
    intro b h1 _
    cases b with
    | nil => rfl
    | cons y ys => simp [charsLt] at h1
  | cons x xs ih =>
    intro b h1 h2
    cases b with
    | nil => simp [charsLt] at h2
    | cons y ys =>
      simp only [charsLt] at h1 h2
      rcases lt_trichotomy x y with hxy | hxy | hxy
      · simp [hxy] at h1
      · subst hxy
        simp only [lt_irrefl, if_false] at h1 h2
        rw [ih ys h1 h2]
      · simp [hxy, lt_asymm hxy] at h2

theorem charsLt_trans : ∀ a b c : List Char, charsLt a b = true → charsLt b c = true →
    charsLt a c = true := by
  intro a
  induction a with
  | nil =>
    intro b c h1 h2
    cases b with
    | nil => simp [charsLt] at h1
    | cons y ys =>
      cases c with
      | nil => simp [charsLt] at h2
      | cons z zs => simp [charsLt]
  | cons x xs ih =>
    intro b c h1 h2
    cases b with
    | nil => simp [charsLt] at h1
    | cons y ys =>
      cases c with
      | nil => simp [charsLt] at h2
      | cons z zs =>
        simp only [charsLt] at h1 h2 ⊢
        rcases lt_trichotomy x y with hxy | hxy | hxy
        · rcases lt_trichotomy y z with hyz | hyz | hyz
          · simp [lt_trans hxy hyz]
          · subst hyz; simp [hxy]
          · simp [hyz, lt_asymm hyz] at h2
        · subst hxy
          simp only [lt_irrefl, if_false] at h1
          rcases lt_trichotomy x z with hyz | hyz | hyz
          · simp [hyz]
          · subst hyz
            simp only [lt_irrefl, if_false] at h2 ⊢
            exact ih ys zs h1 h2
          · simp [hyz, lt_asymm hyz] at h2
        · simp [hxy, lt_asymm hxy] at h1

theorem string_data_eq {a b : String} (h : a.data = b.data) : a = b := by
  cases a; cases b; exact congrArg String.mk h

instance : IsTotal String StrLeP :=
  ⟨fun a b => by
    unfold StrLeP strLe
    cases h : charsLt b.data a.data with
    | false => exact Or.inl (by simp [h])
    | true => exact Or.inr (by simp [charsLt_asymm _ _ h])⟩

instance : IsTrans String StrLeP :=
  ⟨fun a b c hab hbc => by
    unfold StrLeP strLe at hab hbc ⊢
    simp only [Bool.not_eq_true'] at hab hbc ⊢
    cases hca : charsLt c.data a.data with
    | false => rfl
    | true =>
      cases hbc2 : charsLt b.data c.data with
      | true =>
        have hba := charsLt_trans _ _ _ hbc2 hca
        rw [hba] at hab
        exact hab
      | false =>
        have heq := charsLt_conn _ _ hbc2 hbc
        rw [← heq] at hca
        rw [hca] at hab
        exact hab⟩

instance : IsAntisymm String StrLeP :=
  ⟨fun a b hab hba => by
    unfold StrLeP strLe at hab hba
    simp only [Bool.not_eq_true'] at hab hba
    exact string_data_eq (charsLt_conn _ _ hba hab)⟩

/-! ### Helper lemmas: association-list lookup and key sort under permutation -/

theorem jsLookup_perm : ∀ {l₁ l₂ : List (String × String)}, List.Perm l₁ l₂ →
    (l₁.map Prod.fst).Nodup → ∀ k, jsLookup k l₁ = jsLookup k l₂ := by
  intro l₁ l₂ p
  induction p with
  | nil => intro _ _; rfl
  | cons x p ih =>
    intro nd k
    obtain ⟨kx, vx⟩ := x
    simp only [List.map_cons, List.nodup_cons] at nd
    simp only [jsLookup]
    by_cases h : kx = k
    · simp [h]
    · simp [h, ih nd.2 k]
  | swap x y l =>
    intro nd k
    obtain ⟨kx, vx⟩ := x
    obtain ⟨ky, vy⟩ := y
    simp only [List.map_cons, List.nodup_cons, List.mem_cons] at nd
    have hne : ky ≠ kx := fun h => nd.1 (Or.inl h)
    simp only [jsLookup]
    by_cases h1 : ky = k
    · have h2 : ¬ kx = k := fun h2 => hne (h1.trans h2.symm)
      simp [h1, h2]
    · by_cases h2 : kx = k
      · simp [h1, h2]
      · simp [h1, h2]
  | trans p1 p2 ih1 ih2 =>
    intro nd k
    exact (ih1 nd k).trans (ih2 ((p1.map Prod.fst).nodup nd) k)

theorem sortedFordKeys_perm {p₁ p₂ : List (String × String)} (h : List.Perm p₁ p₂) :
    sortedFordKeys p₁ = sortedFordKeys p₂ :=
  List.eq_of_perm_of_sorted
    ((List.perm_insertionSort StrLeP _).trans
      ((h.map Prod.fst).trans (List.perm_insertionSort StrLeP _).symm))
    (List.sorted_insertionSort StrLeP _)
    (List.sorted_insertionSort StrLeP _)

theorem fordParamString_perm {p₁ p₂ : List (String × String)} (h : List.Perm p₁ p₂)
    (nd : (p₁.map Prod.fst).Nodup) : fordParamString p₁ = fordParamString p₂ := by
  unfold fordParamString
  rw [sortedFordKeys_perm h]
  simp only [jsLookup_perm h nd]

/-! ### Helper lemmas: MD5 output shape -/

theorem leBytes_length (n w : Nat) : (leBytes n w).length = n := by simp [leBytes]

theorem md5Digest_length (msg : List Nat) : (md5Digest msg).length = 16 := by
  simp [md5Digest, leBytes_length]

theorem bytesToHex_length (bs : List Nat) : (bytesToHex bs).length = 2 * bs.length := by
  induction bs with
  | nil => rfl
  | cons b t ih => simp only [bytesToHex] at ih ⊢; simp [ih]; omega

theorem md5Hex_length (s : String) : (md5Hex s).length = 32 := by
  show (bytesToHex (md5Digest (strBytes s))).length = 32
  rw [bytesToHex_length, md5Digest_length]

theorem hexChar_mem (n : Nat) : hexChar n ∈ hexDigits := by
  unfold hexChar
  split <;> decide

theorem bytesToHex_mem (bs : List Nat) : ∀ c ∈ bytesToHex bs, c ∈ hexDigits := by
  induction bs with
  | nil => intro c hc; simp [bytesToHex] at hc
  | cons b t ih =>
    intro c hc
    simp only [bytesToHex, List.map_cons, List.flatten_cons, List.mem_append,
      List.mem_cons, List.not_mem_nil, or_false] at hc
    rcases hc with (rfl | rfl) | hc
    · exact hexChar_mem _
    · exact hexChar_mem _
    · exact ih c hc

theorem md5Hex_mem (s : String) : ∀ c ∈ (md5Hex s).data, c ∈ hexDigits :=
  bytesToHex_mem _

/-! ### Claim theorems -/

example : md5Hex "" = "d41d8cd98f00b204e9800998ecf8427e" := by decide
example : md5Hex "abc" = "900150983cd24fb0d6963f7d28e17f72" := by decide
example : createFordSignature "post" "/openapi/lock/v1/control" [("z", "2"), ("a", "1")] "99" =
    "731696fe054c4cfe9998ba6a675a7c8c" := by decide

/-- Claim C4: the lock-API signature sorts the parameter names lexicographically,
concatenates them as `key1=value1&key2=value2&...` with no URL-encoding, signs
`UPPERCASE(method) + path + paramString + sharedSecret` with no extra
separators, takes the 128-bit digest as lowercase hex, and is invariant to the
insertion order of the parameter mapping (`{a:"1", z:"2"}` sorts to `a=1&z=2`
either way). -/
theorem createFordSignature_spec :
    (∀ (method path : String) (params : List (String × String)) (ts : String),
      createFordSignature method path params ts =
        md5Hex (jsToUpper method ++ path ++ fordParamString params ++ FORD_APP_SECRET)) ∧
    (∀ params : List (String × String),
      List.Sorted StrLeP (sortedFordKeys params) ∧
        List.Perm (sortedFordKeys params) (params.map Prod.fst) ∧
        fordParamString params = String.intercalate "&"
          ((sortedFordKeys params).map (fun k => k ++ "=" ++ (jsLookup k params).getD ""))) ∧
    (∀ (params₁ params₂ : List (String × String)) (method path ts : String),
      List.Perm params₁ params₂ → (params₁.map Prod.fst).Nodup →
      createFordSignature method path params₁ ts = createFordSignature method path params₂ ts) ∧
    fordParamString [("a", "1"), ("z", "2")] = "a=1&z=2" ∧
    fordParamString [("z", "2"), ("a", "1")] = "a=1&z=2" ∧
    (∀ (method path : String) (params : List (String × String)) (ts : String),
      (createFordSignature method path params ts).length = 32 ∧
        ∀ c ∈ (createFordSignature method path params ts).data, c ∈ hexDigits) := by
  refine ⟨fun _ _ _ _ => rfl, fun params => ⟨?_, ?_, rfl⟩, ?_, by decide, by decide, ?_⟩
  · exact List.sorted_insertionSort StrLeP _
  · exact List.perm_insertionSort StrLeP _
  · intro p₁ p₂ m path ts hp nd
    unfold createFordSignature
    rw [fordParamString_perm hp nd]
  · intro m path params ts
    exact ⟨md5Hex_length _, md5Hex_mem _⟩

/-- Witness for C4: the insertion-order invariance applied to the spec's
example parameter mapping given in both orders. -/
theorem createFordSignature_spec_witness :
    createFordSignature "POST" "/openapi/lock/v1/control" [("a", "1"), ("z", "2")] "9" =
      createFordSignature "POST" "/openapi/lock/v1/control" [("z", "2"), ("a", "1")] "9" :=
  createFordSignature_spec.2.2.1 [("a", "1"), ("z", "2")] [("z", "2"), ("a", "1")]
    "POST" "/openapi/lock/v1/control" "9" (by decide) (by decide)

/-- Claim C10 (implicit): the fourth (timestamp) argument of
`createFordSignature` is ignored — the result depends only on the method, the
path, the parameter mapping and the fixed shared secret. -/
theorem createFordSignature_ignores_timestamp :
    ∀ (method path : String) (params : List (String × String)) (t₁ t₂ : String),
      createFordSignature method path params t₁ = createFordSignature method path params t₂ :=
  fun _ _ _ _ _ => rfl

/-- Claim C5: `hashPassword` is exactly three sequential applications of the
hex-rendered 128-bit digest (first pass over the plaintext, later passes over
the previous hex digest string), is deterministic, takes no salt or iteration
parameter (its only input is the password), and always yields a 32-character
lowercase-hexadecimal string.  The two closing conjuncts are known
input/output vectors of the triple-MD5 transform. -/
theorem hashPassword_spec :
    (∀ p : String, hashPassword p = md5Hex (md5Hex (md5Hex p))) ∧
    (∀ p q : String, p = q → hashPassword p = hashPassword q) ∧
    (∀ p : String, (hashPassword p).length = 32) ∧
    (∀ p : String, ∀ c ∈ (hashPassword p).data, c ∈ hexDigits) ∧
    hashPassword "" = "acf7ef943fdeb3cbfed8dd0d8f584731" ∧
    hashPassword "password" = "5a22e6c339c96c9c0513a46e44c39683" :=
  ⟨fun _ => rfl, fun _ _ h => congrArg hashPassword h,
   fun p => md5Hex_length (md5Hex (md5Hex p)),
   fun p => md5Hex_mem (md5Hex (md5Hex p)),
   by decide, by decide⟩

/-- Witness for C5: the hypotheses discharged at concrete inputs — determinism
at equal literal inputs, and the hex-digit property at the first character of
`hashPassword ""`. -/
theorem hashPassword_spec_witness :
    hashPassword "" = hashPassword "" ∧ 'a' ∈ hexDigits :=
  ⟨hashPassword_spec.2.1 "" "" rfl,
   hashPassword_spec.2.2.2.1 "" 'a' (by decide)⟩

/-- Claim C8: `setDeviceBrightness` transmits the decimal string of the input
rounded to the nearest integer and clamped to `[1, 100]` (150 is sent as
`"100"`, 0 as `"1"`), `setDeviceColorTemp` the same with `[2700, 6500]`
(2000 is sent as `"2700"`); the clamps are silent (the functions are total and
never raise).  The third conjunct characterizes `jsRound` as nearest-integer
rounding: the result is within one half of the input. -/
theorem setDeviceBrightness_colorTemp_clamp_spec :
    (∀ b : ℚ, setDeviceBrightnessPValue b =
        ("P1501", toString (max 1 (min 100 (jsRound b)))) ∧
      1 ≤ max 1 (min 100 (jsRound b)) ∧ max 1 (min 100 (jsRound b)) ≤ 100) ∧
    (∀ k : ℚ, setDeviceColorTempPValue k =
        ("P1502", toString (max 2700 (min 6500 (jsRound k)))) ∧
      2700 ≤ max 2700 (min 6500 (jsRound k)) ∧ max 2700 (min 6500 (jsRound k)) ≤ 6500) ∧
    (∀ x : ℚ, (jsRound x : ℚ) ≤ x + 1 / 2 ∧ x - 1 / 2 < (jsRound x : ℚ)) ∧
    (setDeviceBrightnessPValue 150).2 = "100" ∧
    (setDeviceBrightnessPValue 0).2 = "1" ∧
    (setDeviceColorTempPValue 2000).2 = "2700" := by
  have h150 : jsRound 150 = 150 := by norm_num [jsRound]
  have h0 : jsRound 0 = 0 := by norm_num [jsRound]
  have h2000 : jsRound 2000 = 2000 := by norm_num [jsRound]
  refine ⟨fun b => ⟨rfl, le_max_left _ _, max_le (by norm_num) (min_le_left _ _)⟩,
    fun k => ⟨rfl, le_max_left _ _, max_le (by norm_num) (min_le_left _ _)⟩,
    fun x => ⟨Int.floor_le (x + 1 / 2), ?_⟩, ?_, ?_, ?_⟩
  · have := Int.sub_one_lt_floor (x + 1 / 2)
    unfold jsRound
    linarith
  · simp only [setDeviceBrightnessPValue, h150]; decide
  · simp only [setDeviceBrightnessPValue, h0]; decide
  · simp only [setDeviceColorTempPValue, h2000]; decide

/-- Counterexample to Claim C9 as stated: a DNS failure (`ENOTFOUND`) is mapped
to a transport message that advises checking the internet connection — it
contains no suggestion to retry (no "retry"/"try again" in any casing), so the
claim that a timeout *or DNS failure* yields a message suggesting retrying
fails on the DNS-failure input. -/
theorem handleApiError_dns_counterexample :
    handleApiError (CaughtError.axios ⟨none, some "ENOTFOUND", "getaddrinfo ENOTFOUND"⟩) =
      "Error: Unable to reach Wyze servers. Please check your internet connection." ∧
    hasSubstr "retry" (handleApiError
      (CaughtError.axios ⟨none, some "ENOTFOUND", "getaddrinfo ENOTFOUND"⟩)) = false ∧
    hasSubstr "Retry" (handleApiError
      (CaughtError.axios ⟨none, some "ENOTFOUND", "getaddrinfo ENOTFOUND"⟩)) = false ∧
    hasSubstr "try again" (handleApiError
      (CaughtError.axios ⟨none, some "ENOTFOUND", "getaddrinfo ENOTFOUND"⟩)) = false ∧
    hasSubstr "Try again" (handleApiError
      (CaughtError.axios ⟨none, some "ENOTFOUND", "getaddrinfo ENOTFOUND"⟩)) = false := by
  decide

/-- Claim C9 (amended): HTTP 404 maps to the not-found message (bad device
identifier), HTTP 429 to the rate-limit message advising to wait before making
more requests, a timeout (`ECONNABORTED`) to a transport message that suggests
trying again, and a DNS failure (`ENOTFOUND`) to a distinct transport message
advising checking the internet connection; 401, 403, 404 and 429 each map to
their own distinct user-facing message, and all six messages are pairwise
distinct from one another. -/
theorem handleApiError_spec :
    (∀ (d : Option AxiosRespData) (m : String),
      handleApiError (.axios { response := some (404, d), code := none, message := m }) =
        "Error: Resource not found. Please check the device MAC address.") ∧
    (∀ (d : Option AxiosRespData) (m : String),
      handleApiError (.axios { response := some (429, d), code := none, message := m }) =
        "Error: Rate limit exceeded. Please wait before making more requests.") ∧
    hasSubstr "wait" "Error: Rate limit exceeded. Please wait before making more requests." = true ∧
    (∀ m : String,
      handleApiError (.axios { response := none, code := some "ECONNABORTED", message := m }) =
        "Error: Request timed out. Please try again.") ∧
    hasSubstr "try again" "Error: Request timed out. Please try again." = true ∧
    (∀ m : String,
      handleApiError (.axios { response := none, code := some "ENOTFOUND", message := m }) =
        "Error: Unable to reach Wyze servers. Please check your internet connection.") ∧
    (∀ (d : Option AxiosRespData) (m : String),
      handleApiError (.axios { response := some (401, d), code := none, message := m }) =
        "Error: Authentication failed. Please check your credentials.") ∧
    (∀ (d : Option AxiosRespData) (m : String),
      handleApiError (.axios { response := some (403, d), code := none, message := m }) =
        "Error: Access denied. You may not have permission for this operation.") ∧
    List.Pairwise (fun a b => a ≠ b)
      ["Error: Authentication failed. Please check your credentials.",
       "Error: Access denied. You may not have permission for this operation.",
       "Error: Resource not found. Please check the device MAC address.",
       "Error: Rate limit exceeded. Please wait before making more requests.",
       "Error: Request timed out. Please try again.",
       "Error: Unable to reach Wyze servers. Please check your internet connection."] :=
  ⟨fun _ _ => rfl, fun _ _ => rfl, by decide, fun _ => rfl, by decide, fun _ => rfl,
   fun _ _ => rfl, fun _ _ => rfl, by decide⟩

/-! ### Helper lemmas for the token-state claims -/

theorem finishEnsure_snd (p : LoginResult × Option WyzeTokens) : (finishEnsure p).2 = p.2 := by
  rcases p with ⟨r, s⟩
  cases r <;> cases s <;> rfl

theorem loginParse_ok (b : LoginRespBody) (now : Int) (t : WyzeTokens)
    (h : loginParse b now = LoginResult.ok t) :
    t.expiresAt = now + TOKEN_REFRESH_INTERVAL := by
  unfold loginParse at h
  by_cases h1 : (!strTruthy (extractTokens b).1 && !isSuccessCode b.code) = true
  · rw [if_pos h1] at h
    split at h
    · split at h <;> cases h
    · cases h
  · rw [if_neg h1] at h
    by_cases h2 : (!strTruthy (extractTokens b).1 || !strTruthy (extractTokens b).2) = true
    · rw [if_pos h2] at h
      cases h
    · rw [if_neg h2] at h
      split at h
      · cases h
        rfl
      · cases h

theorem loginStep_state (creds : Option WyzeCredentials) (ct : Option WyzeTokens)
    (lo : LoginOutcome) (now : Int) :
    (loginStep creds ct lo now).2 = ct ∨
      ∃ t : WyzeTokens, (loginStep creds ct lo now).2 = some t ∧
        t.expiresAt = now + TOKEN_REFRESH_INTERVAL := by
  rcases creds with _ | c
  · exact Or.inl rfl
  rcases lo with b | st
  · rcases hp : loginParse b now with t | m | cm | _ | _ | _ | st2 | _ <;>
      simp only [loginStep, hp]
    · exact Or.inr ⟨t, rfl, loginParse_ok b now t hp⟩
    all_goals exact Or.inl trivial
  · simp only [loginStep]
    split_ifs <;> exact Or.inl rfl

theorem loginStep_ok (creds : Option WyzeCredentials) (ct : Option WyzeTokens)
    (lo : LoginOutcome) (now : Int) (t : WyzeTokens)
    (h : (loginStep creds ct lo now).1 = LoginResult.ok t) :
    (loginStep creds ct lo now).2 = some t ∧
      t.expiresAt = now + TOKEN_REFRESH_INTERVAL := by
  rcases creds with _ | c
  · simp only [loginStep] at h
    cases h
  rcases lo with b | st
  · rcases hp : loginParse b now with t2 | m | cm | _ | _ | _ | st2 | _
    · simp only [loginStep, hp] at h ⊢
      cases h
      exact ⟨rfl, loginParse_ok b now _ hp⟩
    all_goals simp only [loginStep, hp] at h
    all_goals cases h
  · simp only [loginStep] at h
    split_ifs at h

theorem refreshTokenStep_state (creds : Option WyzeCredentials) (ct : Option WyzeTokens)
    (ro : RefreshOutcome) (lo : LoginOutcome) (now : Int) :
    (refreshTokenStep creds ct ro lo now).2 = ct ∨
      ∃ t : WyzeTokens, (refreshTokenStep creds ct ro lo now).2 = some t ∧
        t.expiresAt = now + TOKEN_REFRESH_INTERVAL := by
  rcases ct with _ | tok
  · exact loginStep_state creds none lo now
  rcases creds with _ | c
  · exact Or.inl rfl
  rcases ro with ⟨code, msg, a, r⟩ | _
  · by_cases h : isSuccessCode code = true
    · refine Or.inr ⟨⟨a, r, now + TOKEN_REFRESH_INTERVAL⟩, ?_, rfl⟩
      simp only [refreshTokenStep, h, Bool.not_true, Bool.false_eq_true, if_false]
    · rw [Bool.not_eq_true] at h
      have he : refreshTokenStep (some c) (some tok) (RefreshOutcome.resp code msg a r) lo now =
          loginStep (some c) (some tok) lo now := by
        simp only [refreshTokenStep, h, Bool.not_false, if_true]
      rw [he]
      exact loginStep_state (some c) (some tok) lo now
  · exact loginStep_state (some c) (some tok) lo now

theorem refreshTokenStep_ok (creds : Option WyzeCredentials) (ct : Option WyzeTokens)
    (ro : RefreshOutcome) (lo : LoginOutcome) (now : Int) (t : WyzeTokens)
    (h : (refreshTokenStep creds ct ro lo now).1 = LoginResult.ok t) :
    (refreshTokenStep creds ct ro lo now).2 = some t ∧
      t.expiresAt = now + TOKEN_REFRESH_INTERVAL := by
  rcases ct with _ | tok
  · exact loginStep_ok creds none lo now t h
  rcases creds with _ | c
  · simp only [refreshTokenStep] at h
    cases h
  rcases ro with ⟨code, msg, a, r⟩ | _
  · by_cases hs : isSuccessCode code = true
    · simp only [refreshTokenStep, hs, Bool.not_true, Bool.false_eq_true, if_false] at h ⊢
      cases h
      exact ⟨rfl, rfl⟩
    · rw [Bool.not_eq_true] at hs
      have he : refreshTokenStep (some c) (some tok) (RefreshOutcome.resp code msg a r) lo now =
          loginStep (some c) (some tok) lo now := by
        simp only [refreshTokenStep, hs, Bool.not_false, if_true]
      rw [he] at h ⊢
      exact loginStep_ok (some c) (some tok) lo now t h
  · exact loginStep_ok (some c) (some tok) lo now t h

/-- Claim C7: after every operation the stored token pair is either unchanged
or wholly replaced by a fresh pair with all three fields populated and expiry
set to now + 48h; `setCredentials` never touches it, and every successful login
or refresh replaces the entire pair at once. -/
theorem token_state_wholesale_spec :
    (∀ (s : AuthState) (creds : WyzeCredentials),
      (setCredentials s creds).currentTokens = s.currentTokens) ∧
    (∀ creds ct lo now,
      (loginStep creds ct lo now).2 = ct ∨
        ∃ t : WyzeTokens, (loginStep creds ct lo now).2 = some t ∧
          t.expiresAt = now + TOKEN_REFRESH_INTERVAL) ∧
    (∀ creds ct lo now t, (loginStep creds ct lo now).1 = LoginResult.ok t →
      (loginStep creds ct lo now).2 = some t ∧
        t.expiresAt = now + TOKEN_REFRESH_INTERVAL) ∧
    (∀ creds ct ro lo now,
      (refreshTokenStep creds ct ro lo now).2 = ct ∨
        ∃ t : WyzeTokens, (refreshTokenStep creds ct ro lo now).2 = some t ∧
          t.expiresAt = now + TOKEN_REFRESH_INTERVAL) ∧
    (∀ creds ct ro lo now t, (refreshTokenStep creds ct ro lo now).1 = LoginResult.ok t →
      (refreshTokenStep creds ct ro lo now).2 = some t ∧
        t.expiresAt = now + TOKEN_REFRESH_INTERVAL) ∧
    (∀ creds ct now lo ro,
      (ensureValidTokenStep creds ct now lo ro).2 = ct ∨
        ∃ t : WyzeTokens, (ensureValidTokenStep creds ct now lo ro).2 = some t ∧
          t.expiresAt = now + TOKEN_REFRESH_INTERVAL) := by
  refine ⟨fun _ _ => rfl, loginStep_state, fun c ct lo now t => loginStep_ok c ct lo now t,
    refreshTokenStep_state, fun c ct ro lo now t => refreshTokenStep_ok c ct ro lo now t, ?_⟩
  intro creds ct now lo ro
  unfold ensureValidTokenStep
  split_ifs with h1 h2
  · rw [finishEnsure_snd]
    exact loginStep_state creds ct lo now
  · rw [finishEnsure_snd]
    exact refreshTokenStep_state creds ct ro lo now
  · rcases ct with _ | t
    · exact Or.inl rfl
    · exact Or.inl rfl

/-- Witness for C7: the success-implies-wholesale-replacement conjunct applied
to a concrete successful login. -/
theorem token_state_wholesale_spec_witness :
    (loginStep (some ⟨"e", "p", "k", "i"⟩) none
        (LoginOutcome.resp { access_token := some "A", refresh_token := some "R" }) 7).2 =
      some ⟨"A", "R", 7 + TOKEN_REFRESH_INTERVAL⟩ ∧
    (⟨"A", "R", 7 + TOKEN_REFRESH_INTERVAL⟩ : WyzeTokens).expiresAt =
      7 + TOKEN_REFRESH_INTERVAL :=
  token_state_wholesale_spec.2.2.1 (some ⟨"e", "p", "k", "i"⟩) none
    (LoginOutcome.resp { access_token := some "A", refresh_token := some "R" }) 7
    ⟨"A", "R", 7 + TOKEN_REFRESH_INTERVAL⟩ (by decide)

/-- Claim C1: `ensureValidToken` takes the full-login branch exactly when no
token pair exists or `now` is at or past the estimated expiry, the refresh
branch exactly when `now` is within one hour before the expiry but not past
it, and otherwise returns the cached access token unchanged with no login or
refresh (the result on the cached branch does not depend on any network
outcome).  For a token with expiry `T + 48h`, a call at `T + 47h1m` takes the
refresh branch, at `T + 49h` the login branch, and at `T + 1h` the cached
branch. -/
theorem ensureValidToken_spec :
    (∀ now : Int, ensureValidTokenPath none now = AuthPath.loginPath) ∧
    (∀ (t : WyzeTokens) (now : Int),
      (t.expiresAt ≤ now → ensureValidTokenPath (some t) now = AuthPath.loginPath) ∧
      (t.expiresAt - 3600000 ≤ now → now < t.expiresAt →
        ensureValidTokenPath (some t) now = AuthPath.refreshPath) ∧
      (now < t.expiresAt - 3600000 →
        ensureValidTokenPath (some t) now = AuthPath.cachedPath)) ∧
    (∀ (T : Int) (a r : String),
      ensureValidTokenPath (some ⟨a, r, T + TOKEN_REFRESH_INTERVAL⟩) (T + 169260000) =
        AuthPath.refreshPath ∧
      ensureValidTokenPath (some ⟨a, r, T + TOKEN_REFRESH_INTERVAL⟩) (T + 176400000) =
        AuthPath.loginPath ∧
      ensureValidTokenPath (some ⟨a, r, T + TOKEN_REFRESH_INTERVAL⟩) (T + 3600000) =
        AuthPath.cachedPath) ∧
    (∀ creds ct now lo ro, ensureValidTokenPath ct now = AuthPath.loginPath →
      ensureValidTokenStep creds ct now lo ro = finishEnsure (loginStep creds ct lo now)) ∧
    (∀ creds ct now lo ro, ensureValidTokenPath ct now = AuthPath.refreshPath →
      ensureValidTokenStep creds ct now lo ro =
        finishEnsure (refreshTokenStep creds ct ro lo now)) ∧
    (∀ creds t now lo ro, now < t.expiresAt - 3600000 →
      ensureValidTokenStep creds (some t) now lo ro = (Except.ok t.accessToken, some t)) := by
  have hpath : ∀ (t : WyzeTokens) (now : Int),
      (t.expiresAt ≤ now → ensureValidTokenPath (some t) now = AuthPath.loginPath) ∧
      (t.expiresAt - 3600000 ≤ now → now < t.expiresAt →
        ensureValidTokenPath (some t) now = AuthPath.refreshPath) ∧
      (now < t.expiresAt - 3600000 →
        ensureValidTokenPath (some t) now = AuthPath.cachedPath) := by
    intro t now
    unfold ensureValidTokenPath isTokenExpired isTokenNearExpiry
    simp only [Option.isNone_some, Bool.false_or, ge_iff_le, decide_eq_true_eq]
    refine ⟨fun h => ?_, fun h1 h2 => ?_, fun h => ?_⟩ <;>
      split_ifs <;> first | rfl | (exfalso; omega)
  refine ⟨fun _ => rfl, hpath, ?_, ?_, ?_, ?_⟩
  · intro T a r
    have hI : TOKEN_REFRESH_INTERVAL = 172800000 := by decide
    refine ⟨(hpath _ _).2.1 (by simp only [hI]; omega) (by simp only [hI]; omega),
      (hpath _ _).1 (by simp only [hI]; omega), (hpath _ _).2.2 (by simp only [hI]; omega)⟩
  · intro creds ct now lo ro h
    unfold ensureValidTokenPath at h
    unfold ensureValidTokenStep
    split_ifs at h ⊢
    rfl
  · intro creds ct now lo ro h
    unfold ensureValidTokenPath at h
    unfold ensureValidTokenStep
    split_ifs at h ⊢
    rfl
  · intro creds t now lo ro h
    have h1 : ((some t : Option WyzeTokens).isNone || isTokenExpired (some t) now) = false := by
      unfold isTokenExpired
      simp only [Option.isNone_some, Bool.false_or, ge_iff_le, decide_eq_false_iff_not, not_le]
      omega
    have h2 : isTokenNearExpiry (some t) now = false := by
      unfold isTokenNearExpiry
      simp only [ge_iff_le, decide_eq_false_iff_not, not_le]
      omega
    unfold ensureValidTokenStep
    rw [h1, h2]
    rfl

/-- Witness for C1: the cached branch applied to a concrete fresh token — the
cached access token is returned unchanged even though both supplied network
outcomes are failures. -/
theorem ensureValidToken_spec_witness :
    ensureValidTokenStep none (some ⟨"tok", "ref", 172800000⟩) 3600000
        (LoginOutcome.httpFailure none) RefreshOutcome.thrown =
      (Except.ok "tok", some ⟨"tok", "ref", 172800000⟩) :=
  ensureValidToken_spec.2.2.2.2.2 none ⟨"tok", "ref", 172800000⟩ 3600000
    (LoginOutcome.httpFailure none) RefreshOutcome.thrown (by decide)

/-- Counterexample to Claim C2 as stated: a token-absent login response whose
envelope code is the success value `1` and which carries
`data.mfa_options = ["sms"]` does NOT produce the MFA-required error — the MFA
check is reachable only inside the non-success-code branch, so this response
yields the generic no-access-token failure. -/
theorem login_mfa_counterexample :
    strTruthy mfaSuccessCodeBody.access_token = false ∧
    strTruthy (mfaSuccessCodeBody.data.bind (fun d => d.access_token)) = false ∧
    strTruthy (extractTokens mfaSuccessCodeBody).1 = false ∧
    mfaSuccessCodeBody.data.bind (fun d => d.mfa_options) = some ["sms"] ∧
    loginParse mfaSuccessCodeBody 0 = LoginResult.noAccessToken ∧
    (loginParse mfaSuccessCodeBody 0).isMfaRequired = false := by
  decide

/-- Claim C2 (amended): for a token-absent login response with a NON-SUCCESS
envelope code, a non-empty `data.mfa_options` list produces the distinct
MFA-required error whose message names the offered options, and an absent or
empty list produces the generic login-failed error; a token-absent response
with a success code produces the generic no-access-token error (even if MFA
options are present); the MFA error only ever arises from a non-success code.
The spec's scenario (`data.mfa_options = ["sms"]`, no token, non-success code)
fails with a message naming `"sms"`. -/
theorem login_mfa_spec :
    (∀ (b : LoginRespBody) (now : Int) (opts : List String),
      strTruthy (extractTokens b).1 = false → isSuccessCode b.code = false →
      b.data.bind (fun d => d.mfa_options) = some opts → opts ≠ [] →
      loginParse b now = LoginResult.mfaRequired (mfaMessage opts)) ∧
    (∀ (b : LoginRespBody) (now : Int),
      strTruthy (extractTokens b).1 = false → isSuccessCode b.code = false →
      (b.data.bind (fun d => d.mfa_options) = none ∨
        b.data.bind (fun d => d.mfa_options) = some []) →
      loginParse b now = LoginResult.loginFailed b.code b.msg) ∧
    (∀ (b : LoginRespBody) (now : Int),
      strTruthy (extractTokens b).1 = false → isSuccessCode b.code = true →
      loginParse b now = LoginResult.noAccessToken) ∧
    (∀ now : Int, loginParse mfaSmsBody now = LoginResult.mfaRequired (mfaMessage ["sms"])) ∧
    hasSubstr "sms" (mfaMessage ["sms"]) = true ∧
    (∀ (b : LoginRespBody) (now : Int) (m : String),
      loginParse b now = LoginResult.mfaRequired m → isSuccessCode b.code = false) := by
  refine ⟨?_, ?_, ?_, fun _ => rfl, by decide, ?_⟩
  · intro b now opts h1 h2 h3 h4
    have hl : 0 < opts.length := List.length_pos.mpr h4
    simp [loginParse, h1, h2, h3, hl]
  · intro b now h1 h2 h3
    rcases h3 with h3 | h3 <;> simp [loginParse, h1, h2, h3]
  · intro b now h1 h2
    simp [loginParse, h1, h2]
  · intro b now m h
    cases hsc : isSuccessCode b.code with
    | false => rfl
    | true =>
      exfalso
      unfold loginParse at h
      rw [hsc] at h
      simp only [Bool.not_true, Bool.and_false, Bool.false_eq_true, if_false] at h
      split at h
      · cases h
      · split at h
        · cases h
        · cases h

/-- Witness for C2 (amended): the MFA branch applied to the concrete
`mfaSmsBody` input, all hypotheses discharged by evaluation. -/
theorem login_mfa_spec_witness :
    loginParse mfaSmsBody 0 = LoginResult.mfaRequired (mfaMessage ["sms"]) :=
  login_mfa_spec.1 mfaSmsBody 0 ["sms"] (by decide) (by decide) (by decide) (by decide)

/-- Claim C3: `refreshToken` with no stored pair degrades directly to `login`;
with a stored pair, a thrown refresh error or a non-success response code
falls back to `login` instead of propagating, and a success response replaces
the pair; in every case the caller observes either a refresh success, the
credentials-not-set guard, or exactly the result of the fallback `login` —
never a raw refresh error. -/
theorem refreshToken_fallback_spec :
    (∀ creds ro lo now, refreshTokenStep creds none ro lo now = loginStep creds none lo now) ∧
    (∀ (c : WyzeCredentials) (t : WyzeTokens) (lo : LoginOutcome) (now : Int),
      refreshTokenStep (some c) (some t) RefreshOutcome.thrown lo now =
        loginStep (some c) (some t) lo now) ∧
    (∀ (c : WyzeCredentials) (t : WyzeTokens) (code : RespCode) (msg : Option String)
        (a r : String) (lo : LoginOutcome) (now : Int), isSuccessCode code = false →
      refreshTokenStep (some c) (some t) (RefreshOutcome.resp code msg a r) lo now =
        loginStep (some c) (some t) lo now) ∧
    (∀ (c : WyzeCredentials) (t : WyzeTokens) (code : RespCode) (msg : Option String)
        (a r : String) (lo : LoginOutcome) (now : Int), isSuccessCode code = true →
      refreshTokenStep (some c) (some t) (RefreshOutcome.resp code msg a r) lo now =
        (LoginResult.ok ⟨a, r, now + TOKEN_REFRESH_INTERVAL⟩,
          some ⟨a, r, now + TOKEN_REFRESH_INTERVAL⟩)) ∧
    (∀ creds ct ro lo now,
      (refreshTokenStep creds ct ro lo now).1 = LoginResult.credentialsNotSet ∨
        (∃ t, (refreshTokenStep creds ct ro lo now).1 = LoginResult.ok t) ∨
        refreshTokenStep creds ct ro lo now = loginStep creds ct lo now) := by
  refine ⟨fun _ _ _ _ => rfl, fun _ _ _ _ => rfl, ?_, ?_, ?_⟩
  · intro c t code msg a r lo now h
    simp only [refreshTokenStep, h, Bool.not_false, if_true]
  · intro c t code msg a r lo now h
    simp only [refreshTokenStep, h, Bool.not_true, Bool.false_eq_true, if_false]
  · intro creds ct ro lo now
    rcases ct with _ | t
    · exact Or.inr (Or.inr rfl)
    rcases creds with _ | c
    · exact Or.inl rfl
    rcases ro with ⟨code, msg, a, r⟩ | _
    · by_cases h : isSuccessCode code = true
      · refine Or.inr (Or.inl ⟨⟨a, r, now + TOKEN_REFRESH_INTERVAL⟩, ?_⟩)
        simp only [refreshTokenStep, h, Bool.not_true, Bool.false_eq_true, if_false]
      · rw [Bool.not_eq_true] at h
        refine Or.inr (Or.inr ?_)
        simp only [refreshTokenStep, h, Bool.not_false, if_true]
    · exact Or.inr (Or.inr rfl)

/-- Witness for C3: the non-success-code fallback applied to a concrete refresh
response with code `0`, equal to the corresponding full login. -/
theorem refreshToken_fallback_spec_witness :
    refreshTokenStep (some ⟨"e", "p", "k", "i"⟩) (some ⟨"A", "R", 9⟩)
        (RefreshOutcome.resp (RespCode.num 0) none "na" "nr")
        (LoginOutcome.httpFailure (some 401)) 5 =
      loginStep (some ⟨"e", "p", "k", "i"⟩) (some ⟨"A", "R", 9⟩)
        (LoginOutcome.httpFailure (some 401)) 5 :=
  refreshToken_fallback_spec.2.2.1 ⟨"e", "p", "k", "i"⟩ ⟨"A", "R", 9⟩
    (RespCode.num 0) none "na" "nr" (LoginOutcome.httpFailure (some 401)) 5 (by decide)

/-- Claim C6: the token pair is extracted top-level first, nested `data`
second, top level taking precedence when both are present, and a login whose
response carries the pair top-level succeeds with the same resulting token
pair as one whose response carries the identical pair nested under `data`. -/
theorem login_token_location_spec :
    (∀ b : LoginRespBody, strTruthy b.access_token = true →
      extractTokens b = (b.access_token, b.refresh_token)) ∧
    (∀ (a r : String), a ≠ "" → r ≠ "" → ∀ (code : RespCode) (msg : Option String) (now : Int),
      loginParse ⟨some a, some r, code, msg, none⟩ now =
        LoginResult.ok ⟨a, r, now + TOKEN_REFRESH_INTERVAL⟩ ∧
      loginParse ⟨none, none, code, msg, some ⟨some a, some r, none⟩⟩ now =
        LoginResult.ok ⟨a, r, now + TOKEN_REFRESH_INTERVAL⟩) ∧
    (∀ (a r a2 r2 : String), a ≠ "" → r ≠ "" → ∀ (code : RespCode) (msg : Option String)
        (now : Int),
      loginParse ⟨some a, some r, code, msg, some ⟨some a2, some r2, none⟩⟩ now =
        LoginResult.ok ⟨a, r, now + TOKEN_REFRESH_INTERVAL⟩) := by
  refine ⟨?_, ?_, ?_⟩
  · intro b h
    unfold extractTokens
    rw [if_pos h]
  · intro a r ha hr code msg now
    constructor <;> simp [loginParse, extractTokens, strTruthy, ha, hr]
  · intro a r a2 r2 ha hr code msg now
    simp [loginParse, extractTokens, strTruthy, ha, hr]

/-- Witness for C6: a concrete token pair parsed from the top-level location
and from the nested location, yielding the identical result. -/
theorem login_token_location_spec_witness :
    loginParse ⟨some "A", some "R", RespCode.num 1, none, none⟩ 3 =
      LoginResult.ok ⟨"A", "R", 3 + TOKEN_REFRESH_INTERVAL⟩ ∧
    loginParse ⟨none, none, RespCode.num 1, none, some ⟨some "A", some "R", none⟩⟩ 3 =
      LoginResult.ok ⟨"A", "R", 3 + TOKEN_REFRESH_INTERVAL⟩ :=
  login_token_location_spec.2.1 "A" "R" (by decide) (by decide) (RespCode.num 1) none 3

end Wyze
